import Mathlib

/-!
Verification of the Tal chess application core (opening book, persona-biased
move scoring, move selection, and the dual chess clock) against its
natural-language specification.

The JavaScript sources are shallowly embedded:
* JS numbers that stay finite in the embedded code paths are modelled as `ℚ`;
  timer values that can be `Infinity` (the unlimited preset) are modelled by
  `JSNum`.
* JS strings that are only compared, sliced and prefix-tested (FEN keys, UCI
  move strings) are modelled as `List Char`.
* Results of calls into the external move-legality oracle (chess.js) — legal
  move lists, board contents, post-move check/checkmate probes, SAN
  annotations, move history — are modelled as explicit inputs
  (fields of `Move` / `EvalCtx`), since the oracle is an external collaborator.
* `Math.random()` draws are modelled as explicit `ℚ` parameters in `[0, 1)`,
  one per draw site.
-/

/-! ## Basic chess data (shared by difficulty.js and the engine) -/

/-- Piece colors; chess.js uses the strings `w`/`b` (engine) and
`white`/`black` (book tables); both are modelled by this type. -/
inductive Color where
  | white
  | black
deriving DecidableEq, Repr

/-- The opposite color (`color === 'w' ? 'b' : 'w'`). -/
def oppColor : Color → Color
  | Color.white => Color.black
  | Color.black => Color.white

/-- chess.js piece-type letters `p n b r q k`. -/
inductive PieceType where
  | p
  | n
  | b
  | r
  | q
  | k
deriving DecidableEq, Repr

/-- A board square. chess.js uses strings such as `e4`; we store the file as
`0..7` (for `a..h`, i.e. `charCodeAt(0) - 'a'.charCodeAt(0)`) and the rank as
the digit `1..8` (i.e. `parseInt(sq[1])`). -/
structure Square where
  file : ℕ
  rank : ℕ
deriving DecidableEq, Repr

/-- Squares that actually occur on a chess board. -/
def ValidSq (s : Square) : Prop := s.file < 8 ∧ 1 ≤ s.rank ∧ s.rank ≤ 8

instance (s : Square) : Decidable (ValidSq s) := by
  unfold ValidSq
  infer_instance

/-- difficulty.js `squareDistance`: Manhattan distance
`|file1 - file2| + |rank1 - rank2|` (the source subtracts 1 from each rank
before taking the difference, which cancels). -/
def squareDistance (sq1 sq2 : Square) : ℕ :=
  ((sq1.file : ℤ) - sq2.file).natAbs + ((sq1.rank : ℤ) - sq2.rank).natAbs

/-- An occupied board cell as returned by chess.js `game.board()`. -/
structure BoardPiece where
  type : PieceType
  color : Color
deriving DecidableEq, Repr

/-- `game.board()`: an 8×8 row-major array of cells (row 0 is rank 8),
each cell `null` or a piece. -/
abbrev Board := List (List (Option BoardPiece))

/-- difficulty.js `findKingSquare`: scan the 8×8 board for the king of the
given color; the square is rebuilt as `files[col] + (8 - row)`. -/
def findKingSquare (board : Board) (color : Color) : Option Square :=
  (List.range 8).findSome? fun row =>
    (List.range 8).findSome? fun col =>
      match (board[row]?).bind fun r => r[col]? with
      | some (some piece) =>
          if piece.type = PieceType.k ∧ piece.color = color then
            some ⟨col, 8 - row⟩
          else none
      | _ => none

/-! ## difficulty.js: profiles, style modifiers, Tal-style bonus -/

/-- A difficulty profile (`DIFFICULTY_LEVELS` entry). The display-only string
fields (`name`, `description`, `icon`) are omitted. -/
structure Profile where
  rating : ℚ
  stockfishDepth : ℚ
  thinkTime : ℚ
  talStyleIntensity : ℚ
  mistakeRate : ℚ
  sacrificeThreshold : ℚ
deriving DecidableEq, Repr

def DIFFICULTY_LEVELS.beginner : Profile :=
  { rating := 800, stockfishDepth := 3, thinkTime := 500,
    talStyleIntensity := 0.2, mistakeRate := 0.3, sacrificeThreshold := -5 }

def DIFFICULTY_LEVELS.intermediate : Profile :=
  { rating := 1200, stockfishDepth := 7, thinkTime := 800,
    talStyleIntensity := 0.4, mistakeRate := 0.15, sacrificeThreshold := -3 }

def DIFFICULTY_LEVELS.advanced : Profile :=
  { rating := 1600, stockfishDepth := 12, thinkTime := 1200,
    talStyleIntensity := 0.6, mistakeRate := 0.05, sacrificeThreshold := -2 }

def DIFFICULTY_LEVELS.master : Profile :=
  { rating := 2000, stockfishDepth := 18, thinkTime := 2000,
    talStyleIntensity := 0.8, mistakeRate := 0.02, sacrificeThreshold := -1.5 }

def DIFFICULTY_LEVELS.legend : Profile :=
  { rating := 2700, stockfishDepth := 25, thinkTime := 3000,
    talStyleIntensity := 1.0, mistakeRate := 0, sacrificeThreshold := -1 }

/-- difficulty.js `getDifficulty`: table lookup with fallback to
`intermediate` for unknown names. -/
def getDifficulty (level : String) : Profile :=
  if level = "beginner" then DIFFICULTY_LEVELS.beginner
  else if level = "intermediate" then DIFFICULTY_LEVELS.intermediate
  else if level = "advanced" then DIFFICULTY_LEVELS.advanced
  else if level = "master" then DIFFICULTY_LEVELS.master
  else if level = "legend" then DIFFICULTY_LEVELS.legend
  else DIFFICULTY_LEVELS.intermediate

def TAL_STYLE_MODIFIERS.sacrifice : ℚ := 150
def TAL_STYLE_MODIFIERS.kingAttack : ℚ := 100
def TAL_STYLE_MODIFIERS.check : ℚ := 80
def TAL_STYLE_MODIFIERS.centerControl : ℚ := 50
def TAL_STYLE_MODIFIERS.pieceActivity : ℚ := 40
def TAL_STYLE_MODIFIERS.complexPosition : ℚ := 60
def TAL_STYLE_MODIFIERS.defensiveMove : ℚ := -30
def TAL_STYLE_MODIFIERS.simplification : ℚ := -80
def TAL_STYLE_MODIFIERS.passivePiece : ℚ := -50
def TAL_STYLE_MODIFIERS.openFiles : ℚ := 30
def TAL_STYLE_MODIFIERS.kingUnsafe : ℚ := 70

/-- The 1/3/3/5/9 pawn-unit piece values used by the sacrifice logic
(`pieceValues[x] || 0`; the king is absent from the table, so it gets 0). -/
def pieceValuesPawn : PieceType → ℚ
  | PieceType.p => 1
  | PieceType.n => 3
  | PieceType.b => 3
  | PieceType.r => 5
  | PieceType.q => 9
  | PieceType.k => 0

/-- A chess.js verbose move, together with the oracle-provided facts the
engine reads off it and off its probe copies:
`sanCheck` is `move.san.includes('+')`; `mateAfter` / `checkAfter` are
`tempGame.in_checkmate()` / `tempGame.in_check()` after playing the move on a
probe copy; `attackReplies` is the number of opponent replies whose SAN
contains `+` or that capture, on the same probe copy. -/
structure Move where
  piece : PieceType
  color : Color
  fromSq : Square
  toSq : Square
  captured : Option PieceType
  promotion : Option PieceType
  sanCheck : Bool
  mateAfter : Bool
  checkAfter : Bool
  attackReplies : ℕ
deriving DecidableEq, Repr

/-- A history entry (`game.history({verbose: true})` element); only the
origin and destination squares are inspected by the embedded code. -/
structure HistMove where
  fromSq : Square
  toSq : Square
deriving DecidableEq, Repr

/-- The oracle-owned game state, as read by the embedded code during one
selection: `board` is `game.board()`, `turn` is `game.turn()`, `history` is
`game.history({verbose: true})`, and `legalMoves` is
`game.moves({verbose: true})`. -/
structure EvalCtx where
  board : Board
  turn : Color
  history : List HistMove
  legalMoves : List Move
deriving Repr

/-- difficulty.js `calculateTalStyleBonus`: the sequential `bonus +=` steps
are modelled as a sum of one term per step, in source order. -/
def calculateTalStyleBonus (move : Move) (ctx : EvalCtx) (difficulty : Profile) : ℚ :=
  let intensity := difficulty.talStyleIntensity
  let sacBonus : ℚ :=
    match move.captured with
    | some cap =>
        if pieceValuesPawn cap < pieceValuesPawn move.piece then
          TAL_STYLE_MODIFIERS.sacrifice * intensity
        else 0
    | none => 0
  let checkBonus : ℚ :=
    if move.sanCheck then TAL_STYLE_MODIFIERS.check * intensity else 0
  let centerBonus : ℚ :=
    if move.piece = PieceType.p ∧ (move.toSq.file = 3 ∨ move.toSq.file = 4) then
      TAL_STYLE_MODIFIERS.centerControl * intensity
    else 0
  let moveCount := ctx.history.length
  let devBonus : ℚ :=
    if moveCount < 20 then
      if ((move.piece = PieceType.n ∨ move.piece = PieceType.b) ∧ move.fromSq.rank = 1)
          ∨ move.fromSq.rank = 8 then
        TAL_STYLE_MODIFIERS.pieceActivity * intensity
      else 0
    else 0
  let retreatPenalty : ℚ :=
    if ((move.color = Color.white ∧ move.toSq.rank < move.fromSq.rank)
        ∨ (move.color = Color.black ∧ move.fromSq.rank < move.toSq.rank))
        ∧ move.captured = none then
      TAL_STYLE_MODIFIERS.passivePiece * intensity
    else 0
  let kingApproachBonus : ℚ :=
    match findKingSquare ctx.board (oppColor move.color) with
    | some enemyKingSquare =>
        let distBefore := squareDistance move.fromSq enemyKingSquare
        let distAfter := squareDistance move.toSq enemyKingSquare
        if distAfter < distBefore then
          TAL_STYLE_MODIFIERS.kingAttack * intensity * ((distBefore : ℚ) - (distAfter : ℚ))
        else 0
    | none => 0
  sacBonus + checkBonus + centerBonus + devBonus + retreatPenalty + kingApproachBonus

/-- difficulty.js `isComplexPosition`: more than 30 legal moves and ply count
in the 10..40 middlegame window. -/
def isComplexPosition (ctx : EvalCtx) : Bool :=
  let complexity := ctx.legalMoves.length
  let isMiddlegame := decide (10 ≤ ctx.history.length) && decide (ctx.history.length ≤ 40)
  decide (30 < complexity) && isMiddlegame

/-- difficulty.js `shouldMakeMistake`: `Math.random() < difficulty.mistakeRate`,
with the random draw `r` passed explicitly. -/
def shouldMakeMistake (difficulty : Profile) (r : ℚ) : Bool :=
  decide (r < difficulty.mistakeRate)

/-! ## TalEngine (part_002): move scoring -/

/-- The centipawn piece values of `TalEngine.evaluateMove`
(`{ p: 100, n: 320, b: 330, r: 500, q: 900, k: 0 }`). -/
def pieceValuesCp : PieceType → ℚ
  | PieceType.p => 100
  | PieceType.n => 320
  | PieceType.b => 330
  | PieceType.r => 500
  | PieceType.q => 900
  | PieceType.k => 0

/-- `TalEngine.evaluateSacrifice`. The probe results (`attackReplies`) live on
the move record; the difficulty comes from `this.difficulty`, passed
explicitly here. -/
def evaluateSacrifice (move : Move) (difficulty : Profile) : ℚ :=
  let movingPieceValue := pieceValuesPawn move.piece
  let capturedValue :=
    match move.captured with
    | some cap => pieceValuesPawn cap
    | none => 0
  if capturedValue < movingPieceValue then
    let materialLoss := movingPieceValue - capturedValue
    (if 2 < move.attackReplies then
        (100 * materialLoss) * difficulty.talStyleIntensity
      else 0)
    + (if materialLoss ≤ |difficulty.sacrificeThreshold| then
        50 * difficulty.talStyleIntensity
      else 0)
  else 0

/-- `TalEngine.evaluateKingAttack`. -/
def evaluateKingAttack (move : Move) (ctx : EvalCtx) (difficulty : Profile) : ℚ :=
  match findKingSquare ctx.board (oppColor ctx.turn) with
  | none => 0
  | some enemyKingSquare =>
      let distBefore := squareDistance move.fromSq enemyKingSquare
      let distAfter := squareDistance move.toSq enemyKingSquare
      (if distAfter < distBefore then
          ((distBefore : ℚ) - (distAfter : ℚ)) * 20 * difficulty.talStyleIntensity
        else 0)
      + (if distAfter ≤ 3 then 30 * difficulty.talStyleIntensity else 0)

/-- `TalEngine.evaluatePieceActivity`: central-square bonus, development
bonus, and the opening same-piece repetition penalty. -/
def evaluatePieceActivity (move : Move) (ctx : EvalCtx) : ℚ :=
  let centralSquares : List Square :=
    [⟨3, 4⟩, ⟨3, 5⟩, ⟨4, 4⟩, ⟨4, 5⟩, ⟨2, 4⟩, ⟨2, 5⟩, ⟨5, 4⟩, ⟨5, 5⟩]
  let centerBonus : ℚ := if centralSquares.contains move.toSq then 25 else 0
  let backRank : ℕ := if move.color = Color.white then 1 else 8
  let devBonus : ℚ :=
    if move.fromSq.rank = backRank ∧ move.piece ≠ PieceType.k then 20 else 0
  let repPenalty : ℚ :=
    if ctx.history.length < 10
        ∧ ∃ m ∈ ctx.history, m.fromSq = move.fromSq ∨ m.toSq = move.fromSq then
      -15
    else 0
  centerBonus + devBonus + repPenalty

/-- `TalEngine.evaluateMove`: the sequential `score +=` steps as a sum of one
term per step, in source order. -/
def evaluateMove (move : Move) (ctx : EvalCtx) (difficulty : Profile) : ℚ :=
  (match move.captured with
    | some cap => pieceValuesCp cap * 1.5
    | none => 0)
  + calculateTalStyleBonus move ctx difficulty
  + (if move.mateAfter then 100000
      else if move.checkAfter then TAL_STYLE_MODIFIERS.check else 0)
  + (match move.captured with
    | some _ => evaluateSacrifice move difficulty
    | none => 0)
  + (if isComplexPosition ctx then
      TAL_STYLE_MODIFIERS.complexPosition * difficulty.talStyleIntensity
    else 0)
  + evaluateKingAttack move ctx difficulty
  + evaluatePieceActivity move ctx

/-! ## TalEngine (part_002): move selection -/

/-- `Math.floor(r * n)` for a random draw `r` and an array length `n`,
converted to a list index. -/
def jsFloorIdx (r : ℚ) (n : ℕ) : ℕ := (Int.floor (r * (n : ℚ))).toNat

/-- The move object `{from, to, promotion}` returned by
`calculateBestMove` / `getRandomMove`. -/
structure EngineMove where
  fromSq : Square
  toSq : Square
  promotion : Option PieceType
deriving DecidableEq, Repr

/-- Which branch of `calculateBestMove` produced the move: the
mistake path (`getRandomMove`) or the scored top-candidate pick. -/
inductive CalcResult where
  | mistake (m : EngineMove)
  | pick (m : EngineMove)
deriving DecidableEq, Repr

/-- `TalEngine.getRandomMove`; `none` models the out-of-range access
`moves[i].from` on an invalid index (impossible for `r ∈ [0,1)`). -/
def getRandomMove (moves : List Move) (r : ℚ) : Option EngineMove :=
  (moves[jsFloorIdx r moves.length]?).map fun randomMove =>
    ⟨randomMove.fromSq, randomMove.toSq, randomMove.promotion⟩

/-- One insertion step of the stable descending sort. -/
def insertDesc (a : Move × ℚ) : List (Move × ℚ) → List (Move × ℚ)
  | [] => [a]
  | q :: t => if q.2 ≤ a.2 then a :: q :: t else q :: insertDesc a t

/-- `scoredMoves.sort((a, b) => b.score - a.score)`: JS `Array.prototype.sort`
is a stable sort (ES2019), modelled as a stable insertion sort placing
higher scores first and resolving ties by input order. -/
def sortDesc : List (Move × ℚ) → List (Move × ℚ)
  | [] => []
  | a :: t => insertDesc a (sortDesc t)

/-- `TalEngine.calculateBestMove`. The thinking delay has no effect on the
returned move and is not modelled. `r1` is the `shouldMakeMistake` draw and
`r2` the selection draw of whichever branch runs; `none` models the `null`
return on an empty move list (and the crash on an out-of-range pick, which
cannot happen for `r2 ∈ [0,1)`). -/
def calculateBestMove (ctx : EvalCtx) (difficulty : Profile) (r1 r2 : ℚ) : Option CalcResult :=
  let moves := ctx.legalMoves
  if moves.length = 0 then none
  else if shouldMakeMistake difficulty r1 then
    (getRandomMove moves r2).map CalcResult.mistake
  else
    let scoredMoves := moves.map fun move => (move, evaluateMove move ctx difficulty)
    let sorted := sortDesc scoredMoves
    let topMoves := sorted.take (max 1 (Int.ceil (3 * (1 - difficulty.talStyleIntensity * 0.5)))).toNat
    (topMoves[jsFloorIdx r2 topMoves.length]?).map fun selected =>
      CalcResult.pick ⟨selected.1.fromSq, selected.1.toSq, selected.1.promotion⟩

/-! ## Opening book (part_000 data, part_002 lookup) -/

/-- One opening-book table row: position key (a 4-field FEN prefix string)
and the list of UCI candidate moves. `Object.entries` iterates string keys in
insertion order, so the table is modelled as an ordered association list. -/
abbrev BookEntry := List Char × List (List Char)

/-- `TAL_OPENINGS.white`, in source declaration order. -/
def TAL_OPENINGS.white : List BookEntry :=
  [ ("rnbqkbnr/pppppppp/8/8/8/8/PPPPPPPP/RNBQKBNR w KQkq -".toList, ["e2e4".toList]),
    ("rnbqkbnr/pp1ppppp/8/2p5/4P3/8/PPPP1PPP/RNBQKBNR w KQkq -".toList, ["g1f3".toList]),
    ("rnbqkbnr/pp2pppp/3p4/2p5/4P3/5N2/PPPP1PPP/RNBQKB1R w KQkq -".toList, ["d2d4".toList]),
    ("r1bqkbnr/pp1ppppp/2n5/2p5/4P3/5N2/PPPP1PPP/RNBQKB1R w KQkq -".toList, ["d2d4".toList]),
    ("rnbqkbnr/pp1p1ppp/4p3/2p5/4P3/5N2/PPPP1PPP/RNBQKB1R w KQkq -".toList, ["d2d4".toList]),
    ("rnbqkbnr/pp2pppp/3p4/8/3pP3/5N2/PPP2PPP/RNBQKB1R w KQkq -".toList, ["f3d4".toList]),
    ("rnbqkb1r/pp2pppp/3p1n2/8/3NP3/8/PPP2PPP/RNBQKB1R w KQkq -".toList, ["b1c3".toList]),
    ("rnbqkb1r/1p2pppp/p2p1n2/8/3NP3/2N5/PPP2PPP/R1BQKB1R w KQkq -".toList,
      ["c1g5".toList, "c1e3".toList, "f2f3".toList]),
    ("rnbqkb1r/pp2pp1p/3p1np1/8/3NP3/2N5/PPP2PPP/R1BQKB1R w KQkq -".toList,
      ["c1e3".toList, "f2f3".toList]),
    ("rnbqkb1r/pp3ppp/3ppn2/8/3NP3/2N5/PPP2PPP/R1BQKB1R w KQkq -".toList,
      ["g2g4".toList, "c1e3".toList]),
    ("rnbqkbnr/pppp1ppp/8/4p3/4P3/8/PPPP1PPP/RNBQKBNR w KQkq -".toList,
      ["g1f3".toList, "f2f4".toList]),
    ("rnbqkbnr/pppp1ppp/8/4p3/4PP2/8/PPPP2PP/RNBQKBNR b KQkq -".toList, ["e5f4".toList]),
    ("rnbqkbnr/pppp1ppp/8/8/4Pp2/8/PPPP2PP/RNBQKBNR w KQkq -".toList, ["g1f3".toList]),
    ("r1bqkbnr/pppp1ppp/2n5/4p3/4P3/5N2/PPPP1PPP/RNBQKB1R w KQkq -".toList,
      ["f1c4".toList, "d2d4".toList]),
    ("r1bqkbnr/pppp1ppp/2n5/4p3/2B1P3/5N2/PPPP1PPP/RNBQK2R b KQkq -".toList,
      ["f1c5".toList, "g8f6".toList]),
    ("r1bqkbnr/pppp1ppp/2n5/4p3/3PP3/5N2/PPP2PPP/RNBQKB1R b KQkq -".toList, ["e5d4".toList]),
    ("rnbqkbnr/pppp1ppp/4p3/8/4P3/8/PPPP1PPP/RNBQKBNR w KQkq -".toList, ["d2d4".toList]),
    ("rnbqkbnr/ppp2ppp/4p3/3p4/3PP3/8/PPP2PPP/RNBQKBNR w KQkq -".toList,
      ["b1c3".toList, "e4e5".toList]),
    ("rnbqkbnr/ppp2ppp/4p3/3pP3/3P4/8/PPP2PPP/RNBQKBNR b KQkq -".toList, ["c7c5".toList]),
    ("rnbqkbnr/ppp2ppp/4p3/3p4/3PP3/2N5/PPP2PPP/R1BQKBNR b KQkq -".toList,
      ["g8f6".toList, "d5e4".toList]),
    ("rnbqkbnr/pp1ppppp/2p5/8/4P3/8/PPPP1PPP/RNBQKBNR w KQkq -".toList, ["d2d4".toList]),
    ("rnbqkbnr/pp2pppp/2p5/3p4/3PP3/8/PPP2PPP/RNBQKBNR w KQkq -".toList,
      ["b1c3".toList, "e4e5".toList]),
    ("rnbqkbnr/pp2pppp/2p5/3pP3/3P4/8/PPP2PPP/RNBQKBNR b KQkq -".toList, ["c8f5".toList]),
    ("rnbqkbnr/ppp1pppp/3p4/8/4P3/8/PPPP1PPP/RNBQKBNR w KQkq -".toList, ["d2d4".toList]),
    ("rnbqkb1r/ppp1pppp/3p1n2/8/3PP3/8/PPP2PPP/RNBQKBNR w KQkq -".toList, ["b1c3".toList]),
    ("rnbqkb1r/ppp1pppp/3p1n2/8/3PP3/2N5/PPP2PPP/R1BQKBNR b KQkq -".toList, ["g7g6".toList]),
    ("rnbqkb1r/ppp1pp1p/3p1np1/8/3PP3/2N5/PPP2PPP/R1BQKBNR w KQkq -".toList, ["f2f4".toList]),
    ("rnbqkb1r/pppppppp/5n2/8/4P3/8/PPPP1PPP/RNBQKBNR w KQkq -".toList, ["e4e5".toList]),
    ("rnbqkb1r/pppppppp/8/3nP3/8/8/PPPP1PPP/RNBQKBNR w KQkq -".toList, ["d2d4".toList]) ]

/-- `TAL_OPENINGS.black` as it exists at runtime. The source object literal
declares the key `rnbqkb1r/pppppppp/5n2/8/2PP4/8/PP2PPPP/RNBQKBNR b KQkq -`
twice (once with `['g7g6']`, later with `['c7c5', 'g7g6']`); per JS
object-literal semantics the runtime object holds that key once, at its
first-occurrence position, with the last assigned value `['c7c5', 'g7g6']`,
and `Object.entries` yields 27 entries in that order — which is what this
list models. All other entries are in source declaration order. -/
def TAL_OPENINGS.black : List BookEntry :=
  [ ("rnbqkbnr/pppppppp/8/8/4P3/8/PPPP1PPP/RNBQKBNR b KQkq -".toList, ["c7c5".toList]),
    ("rnbqkbnr/pp1ppppp/8/2p5/4P3/5N2/PPPP1PPP/RNBQKB1R b KQkq -".toList, ["d7d6".toList]),
    ("rnbqkbnr/pp2pppp/3p4/2p5/3PP3/5N2/PPP2PPP/RNBQKB1R b KQkq -".toList, ["c5d4".toList]),
    ("rnbqkbnr/pp2pppp/3p4/8/3NP3/8/PPP2PPP/RNBQKB1R b KQkq -".toList, ["g8f6".toList]),
    ("rnbqkb1r/pp2pppp/3p1n2/8/3NP3/2N5/PPP2PPP/R1BQKB1R b KQkq -".toList, ["a7a6".toList]),
    ("rnbqkb1r/1p2pppp/p2p1n2/6B1/3NP3/2N5/PPP2PPP/R2QKB1R b KQkq -".toList, ["e7e6".toList]),
    ("rnbqkb1r/1p2pppp/p2p1n2/8/3NP3/2N1B3/PPP2PPP/R2QKB1R b KQkq -".toList,
      ["e7e5".toList, "e7e6".toList, "b8d7".toList]),
    ("rnbqkb1r/1p2pppp/p2p1n2/8/3NP3/2N5/PPP1BPPP/R1BQK2R b KQkq -".toList, ["e7e5".toList]),
    ("rnbqkb1r/1p2pppp/p2p1n2/8/3NP3/2N2P2/PPP3PP/R1BQKB1R b KQkq -".toList,
      ["e7e5".toList, "e7e6".toList]),
    ("rnbqkb1r/1p3ppp/p2ppn2/6B1/3NPP2/2N5/PPP3PP/R2QKB1R b KQkq -".toList, ["d8b6".toList]),
    ("rnbqkbnr/pppppppp/8/8/3P4/8/PPP1PPPP/RNBQKBNR b KQkq -".toList, ["g8f6".toList]),
    ("rnbqkb1r/pppppppp/5n2/8/2PP4/8/PP2PPPP/RNBQKBNR b KQkq -".toList,
      ["c7c5".toList, "g7g6".toList]),
    ("rnbqkb1r/pppppp1p/5np1/8/2PP4/2N5/PP2PPPP/R1BQKBNR b KQkq -".toList, ["f8g7".toList]),
    ("rnbqkb1r/pppppp1p/5np1/8/2PPP3/2N5/PP3PPP/R1BQKBNR b KQkq -".toList, ["d7d6".toList]),
    ("rnbqk2r/ppp1ppbp/3p1np1/8/2PPP3/2N2N2/PP3PPP/R1BQKB1R b KQkq -".toList, ["e8g8".toList]),
    ("rnbq1rk1/ppp1ppbp/3p1np1/8/2PPP3/2N2N2/PP2BPPP/R1BQK2R b KQkq -".toList, ["e7e5".toList]),
    ("rnbqk2r/ppp1ppbp/3p1np1/8/2PPP3/2N2P2/PP4PP/R1BQKBNR b KQkq -".toList, ["e8g8".toList]),
    ("rnbq1rk1/ppp1ppbp/3p1np1/8/2PPP3/2N2P2/PP4PP/R1BQKBNR b KQkq -".toList,
      ["e7e5".toList, "c7c5".toList]),
    ("rnbqk2r/ppp1ppbp/3p1np1/8/2PPPP2/2N5/PP4PP/R1BQKBNR b KQkq -".toList,
      ["e8g8".toList, "c7c5".toList]),
    ("rnbq1rk1/ppp1ppbp/3p1np1/8/2PPP3/2N2P2/PP2N1PP/R1BQKB1R b KQkq -".toList,
      ["e7e5".toList]),
    ("rnbq1rk1/ppp2pbp/3p1np1/4p3/2PPP3/2N2N2/PP2BPPP/R1BQK2R b KQkq -".toList,
      ["b8c6".toList, "b8d7".toList]),
    ("rnbqkbnr/pppppppp/8/8/2P5/8/PP1PPPPP/RNBQKBNR b KQkq -".toList,
      ["e7e5".toList, "g8f6".toList, "c7c5".toList]),
    ("rnbqkbnr/pppp1ppp/8/4p3/2P5/2N5/PP1PPPPP/R1BQKBNR b KQkq -".toList,
      ["g8f6".toList, "b8c6".toList]),
    ("rnbqkbnr/pppppppp/8/8/8/5N2/PPPPPPPP/RNBQKB1R b KQkq -".toList,
      ["d7d5".toList, "g8f6".toList]),
    ("rnbqkb1r/pp1ppppp/5n2/2pP4/2P5/8/PP2PPPP/RNBQKBNR b KQkq -".toList, ["e7e6".toList]),
    ("rnbqkb1r/pp1p1ppp/4pn2/2pP4/8/2N5/PP2PPPP/R1BQKBNR b KQkq -".toList, ["d7d6".toList]),
    ("rnbqkb1r/pp3ppp/3ppn2/2pP4/4P3/2N5/PP3PPP/R1BQKBNR b KQkq -".toList, ["g7g6".toList]) ]

/-- JS `str.split(' ')` on a character list (consecutive separators produce
empty segments, as in JS). -/
def splitSpAux : List Char → List Char → List (List Char)
  | [], acc => [acc.reverse]
  | c :: t, acc =>
      if c = ' ' then acc.reverse :: splitSpAux t []
      else splitSpAux t (c :: acc)

def splitSp (s : List Char) : List (List Char) := splitSpAux s []

/-- `fen.split(' ').slice(0, 4).join(' ')`: the first four FEN fields —
piece placement, side to move, castling rights, and the en-passant square.
(The same normalization is applied to the stored keys.) -/
def simpleFen (fen : List Char) : List Char :=
  List.intercalate (" ".toList) ((splitSp fen).take 4)

/-- The move object built by `TalEngine.convertToMoveObject` from a UCI
string: `from` and `to` are the two 2-character square names and `promotion`
the optional 5th character. -/
structure BookMove where
  fromSq : List Char
  toSq : List Char
  promotion : Option Char
deriving DecidableEq, Repr

/-- `TalEngine.convertToMoveObject` (`null` for strings shorter than 4,
which also covers the falsy `undefined` input). -/
def convertToMoveObject (uci : List Char) : Option BookMove :=
  if uci.length < 4 then none
  else some ⟨uci.take 2, (uci.drop 2).take 2, if 4 < uci.length then uci[4]? else none⟩

/-- `TalEngine.getOpeningBookMove`: normalize the queried FEN to its first
four fields, scan the side's table in declaration order, and on the first
entry whose (re-normalized) key is a string prefix of the queried key, pick a
random candidate (`r` is the `Math.random()` draw). -/
def getOpeningBookMove (fen : List Char) (color : Color) (r : ℚ) : Option BookMove :=
  let simple := simpleFen fen
  let book := if color = Color.white then TAL_OPENINGS.white else TAL_OPENINGS.black
  match book.find? (fun e => (simpleFen e.1).isPrefixOf simple) with
  | some e =>
      match e.2[jsFloorIdx r e.2.length]? with
      | some selectedMove => convertToMoveObject selectedMove
      | none => none
  | none => none

/-- Which branch of `TalEngine.getBestMove` produced the move: the opening
book or the heuristic engine (`calculateBestMove`). -/
inductive Sel where
  | book (m : BookMove)
  | engine (r : CalcResult)
deriving DecidableEq, Repr

/-- `TalEngine.getBestMove`: Tal plays the color opposite to the player;
book first (a `null` converted book move falls through), otherwise Tal-style
evaluation. The thinking delay does not affect the result and is not
modelled. -/
def getBestMove (fen : List Char) (playerColor : Color) (ctx : EvalCtx)
    (difficulty : Profile) (rBook r1 r2 : ℚ) : Option Sel :=
  let talColor := if playerColor = Color.white then Color.black else Color.white
  match getOpeningBookMove fen talColor rBook with
  | some bookMove => some (Sel.book bookMove)
  | none => (calculateBestMove ctx difficulty r1 r2).map Sel.engine

/-! ## timer.js: the dual chess-clock state machine -/

/-- A JS number that is either finite or `Infinity` (the `unlimited`
preset's `time`), with the JS arithmetic the timer uses:
`Infinity - x = Infinity`, `Infinity + x = Infinity`, `Infinity <= 0` false. -/
inductive JSNum where
  | fin (q : ℚ)
  | inf
deriving DecidableEq, Repr

def JSNum.sub : JSNum → ℚ → JSNum
  | JSNum.fin q, d => JSNum.fin (q - d)
  | JSNum.inf, _ => JSNum.inf

def JSNum.add : JSNum → ℚ → JSNum
  | JSNum.fin q, d => JSNum.fin (q + d)
  | JSNum.inf, _ => JSNum.inf

/-- The JS comparison `x <= 0`. -/
def JSNum.le0 : JSNum → Bool
  | JSNum.fin q => decide (q ≤ 0)
  | JSNum.inf => false

/-- `0 <= x` (true for `Infinity`). -/
def JSNum.nonneg : JSNum → Bool
  | JSNum.fin q => decide (0 ≤ q)
  | JSNum.inf => true

/-- The two clocks; timer.js uses the strings `player` / `opponent`. -/
inductive Side where
  | player
  | opponent
deriving DecidableEq, Repr

/-- A named time-control preset (`TIME_CONTROLS` entry); the display-only
fields are omitted. -/
structure TimeControl where
  time : JSNum
  increment : ℚ
deriving DecidableEq, Repr

def TIME_CONTROLS.bullet : TimeControl := ⟨JSNum.fin 180, 0⟩
def TIME_CONTROLS.blitz : TimeControl := ⟨JSNum.fin 300, 0⟩
def TIME_CONTROLS.rapid : TimeControl := ⟨JSNum.fin 600, 0⟩
def TIME_CONTROLS.classical : TimeControl := ⟨JSNum.fin 900, 10⟩
def TIME_CONTROLS.unlimited : TimeControl := ⟨JSNum.inf, 0⟩

/-- The property access `TIME_CONTROLS[key]` (`undefined` for unknown keys). -/
def TIME_CONTROLS.lookup (key : String) : Option TimeControl :=
  if key = "bullet" then some TIME_CONTROLS.bullet
  else if key = "blitz" then some TIME_CONTROLS.blitz
  else if key = "rapid" then some TIME_CONTROLS.rapid
  else if key = "classical" then some TIME_CONTROLS.classical
  else if key = "unlimited" then some TIME_CONTROLS.unlimited
  else none

/-- The mutable fields of `TimerManager`. The `intervalId` handle and the DOM
display are not part of the state proper: starting/stopping the interval only
controls when `tick` fires, and `tick` is modelled as an explicitly invoked
step (its `isPaused` guard makes post-timeout ticks no-ops, matching the
cleared interval). -/
structure TimerState where
  playerTime : JSNum
  opponentTime : JSNum
  increment : ℚ
  activeTimer : Option Side
  isPaused : Bool
  currentTimeControl : String
deriving DecidableEq, Repr

/-- Callback invocations a step can emit: `timeout loser` is the
`onTimeoutCallback(loser)` call from `handleTimeout`, and `ticked` is the
per-tick `onTickCallback` call (its time/active-side arguments play no role
in the claims and are omitted). -/
inductive Evt where
  | timeout (loser : Side)
  | ticked
deriving DecidableEq, Repr

namespace TimerManager

/-- The `TimerManager` constructor state. -/
def initialState : TimerState :=
  { playerTime := JSNum.fin 0, opponentTime := JSNum.fin 0, increment := 0,
    activeTimer := none, isPaused := true, currentTimeControl := "rapid" }

/-- `TimerManager.init`: load a preset (falling back to `rapid` for unknown
keys, while still storing the raw key), reset both clocks, clear the active
side, pause. -/
def init (s : TimerState) (timeControlKey : String) : TimerState :=
  let control := (TIME_CONTROLS.lookup timeControlKey).getD TIME_CONTROLS.rapid
  { s with
    currentTimeControl := timeControlKey,
    playerTime := control.time,
    opponentTime := control.time,
    increment := control.increment,
    activeTimer := none,
    isPaused := true }

/-- `TimerManager.start`: no-op under the unlimited preset; otherwise set the
active side and unpause (the real-time interval it installs is modelled by
invoking `tick`). -/
def start (s : TimerState) (side : Side) : TimerState :=
  if s.currentTimeControl = "unlimited" then s
  else { s with activeTimer := some side, isPaused := false }

/-- `TimerManager.pause`. -/
def pause (s : TimerState) : TimerState :=
  { s with isPaused := true }

/-- `TimerManager.resume`: restart decrementing only if a side is active and
the preset is not unlimited. -/
def resume (s : TimerState) : TimerState :=
  if s.activeTimer ≠ none ∧ s.currentTimeControl ≠ "unlimited" then
    { s with isPaused := false }
  else s

/-- `TimerManager.switchTimer`: no-op under the unlimited preset; otherwise
add the increment to the side that just moved, then flip `activeTimer` with
`activeTimer === 'player' ? 'opponent' : 'player'` (so a `null` active timer
is flipped to `player`). -/
def switchTimer (s : TimerState) : TimerState :=
  if s.currentTimeControl = "unlimited" then s
  else
    let s1 :=
      match s.activeTimer with
      | some Side.player => { s with playerTime := s.playerTime.add s.increment }
      | some Side.opponent => { s with opponentTime := s.opponentTime.add s.increment }
      | none => s
    { s1 with
      activeTimer :=
        if s.activeTimer = some Side.player then some Side.opponent else some Side.player }

/-- `TimerManager.tick` (invoked every 100 ms while the interval runs):
decrement the active side by 0.1 s; on crossing zero clamp to 0 and run
`handleTimeout` (stop, pause, fire the timeout callback) without firing the
per-tick callback; otherwise fire the per-tick callback. -/
def tick (s : TimerState) : TimerState × Option Evt :=
  if s.isPaused then (s, none)
  else
    match s.activeTimer with
    | none => (s, none)
    | some Side.player =>
        let pt := s.playerTime.sub 0.1
        if pt.le0 then
          ({ s with playerTime := JSNum.fin 0, isPaused := true },
            some (Evt.timeout Side.player))
        else ({ s with playerTime := pt }, some Evt.ticked)
    | some Side.opponent =>
        let ot := s.opponentTime.sub 0.1
        if ot.le0 then
          ({ s with opponentTime := JSNum.fin 0, isPaused := true },
            some (Evt.timeout Side.opponent))
        else ({ s with opponentTime := ot }, some Evt.ticked)

/-- `TimerManager.reset`: re-init with the stored time control. -/
def reset (s : TimerState) : TimerState :=
  init s s.currentTimeControl

/-- The externally triggerable operations of the clock state machine. -/
inductive Op where
  | init (timeControlKey : String)
  | start (side : Side)
  | pause
  | resume
  | switchTimer
  | tick
  | reset

/-- Apply one operation (dropping the emitted events). -/
def applyOp (s : TimerState) : Op → TimerState
  | Op.init k => init s k
  | Op.start side => start s side
  | Op.pause => pause s
  | Op.resume => resume s
  | Op.switchTimer => switchTimer s
  | Op.tick => (tick s).1
  | Op.reset => reset s

/-- States reachable from the constructor state by any operation sequence. -/
inductive Reachable : TimerState → Prop where
  | base : Reachable initialState
  | step {s : TimerState} (op : Op) : Reachable s → Reachable (applyOp s op)

/-- Run `n` consecutive `tick`s (the 100 ms cadence), collecting the emitted
callback invocations in order. -/
def runTicks : ℕ → TimerState → TimerState × List Evt
  | 0, s => (s, [])
  | n + 1, s =>
      ((runTicks n (tick s).1).1, (tick s).2.toList ++ (runTicks n (tick s).1).2)

/-- The clock state of the timeout scenario: blitz preset (300 s, zero
increment) initialized, then `start('player')`. -/
def blitzStarted : TimerState :=
  start (init initialState ("blitz")) Side.player

end TimerManager

/-! ## Comparison definitions written from the spec's wording

These are not translations of the source; each is a named variant used to
state a claim about the source definition it is compared with. -/

/-- `calculateTalStyleBonus` with the opening development-bonus step removed;
used to isolate exactly what that step contributes. -/
def calculateTalStyleBonusSansDev (move : Move) (ctx : EvalCtx) (difficulty : Profile) : ℚ :=
  let intensity := difficulty.talStyleIntensity
  let sacBonus : ℚ :=
    match move.captured with
    | some cap =>
        if pieceValuesPawn cap < pieceValuesPawn move.piece then
          TAL_STYLE_MODIFIERS.sacrifice * intensity
        else 0
    | none => 0
  let checkBonus : ℚ :=
    if move.sanCheck then TAL_STYLE_MODIFIERS.check * intensity else 0
  let centerBonus : ℚ :=
    if move.piece = PieceType.p ∧ (move.toSq.file = 3 ∨ move.toSq.file = 4) then
      TAL_STYLE_MODIFIERS.centerControl * intensity
    else 0
  let retreatPenalty : ℚ :=
    if ((move.color = Color.white ∧ move.toSq.rank < move.fromSq.rank)
        ∨ (move.color = Color.black ∧ move.fromSq.rank < move.toSq.rank))
        ∧ move.captured = none then
      TAL_STYLE_MODIFIERS.passivePiece * intensity
    else 0
  let kingApproachBonus : ℚ :=
    match findKingSquare ctx.board (oppColor move.color) with
    | some enemyKingSquare =>
        let distBefore := squareDistance move.fromSq enemyKingSquare
        let distAfter := squareDistance move.toSq enemyKingSquare
        if distAfter < distBefore then
          TAL_STYLE_MODIFIERS.kingAttack * intensity * ((distBefore : ℚ) - (distAfter : ℚ))
        else 0
    | none => 0
  sacBonus + checkBonus + centerBonus + retreatPenalty + kingApproachBonus

/-- `evaluateMove` with the position-complexity bonus step removed; used to
state that the complexity bonus is a per-position constant. -/
def evaluateMoveSansComplexity (move : Move) (ctx : EvalCtx) (difficulty : Profile) : ℚ :=
  (match move.captured with
    | some cap => pieceValuesCp cap * 1.5
    | none => 0)
  + calculateTalStyleBonus move ctx difficulty
  + (if move.mateAfter then 100000
      else if move.checkAfter then TAL_STYLE_MODIFIERS.check else 0)
  + (match move.captured with
    | some _ => evaluateSacrifice move difficulty
    | none => 0)
  + evaluateKingAttack move ctx difficulty
  + evaluatePieceActivity move ctx

/-- `calculateBestMove` with every candidate scored by
`evaluateMoveSansComplexity` instead of `evaluateMove`; used to state that
the complexity bonus never changes which move is selected. -/
def calculateBestMoveSansComplexity (ctx : EvalCtx) (difficulty : Profile) (r1 r2 : ℚ) :
    Option CalcResult :=
  let moves := ctx.legalMoves
  if moves.length = 0 then none
  else if shouldMakeMistake difficulty r1 then
    (getRandomMove moves r2).map CalcResult.mistake
  else
    let scoredMoves := moves.map fun move => (move, evaluateMoveSansComplexity move ctx difficulty)
    let sorted := sortDesc scoredMoves
    let topMoves := sorted.take (max 1 (Int.ceil (3 * (1 - difficulty.talStyleIntensity * 0.5)))).toNat
    (topMoves[jsFloorIdx r2 topMoves.length]?).map fun selected =>
      CalcResult.pick ⟨selected.1.fromSq, selected.1.toSq, selected.1.promotion⟩

/-- The side's opening-book table chosen by `getOpeningBookMove`
(`color === 'white' ? TAL_OPENINGS.white : TAL_OPENINGS.black`). -/
def bookFor (color : Color) : List BookEntry :=
  if color = Color.white then TAL_OPENINGS.white else TAL_OPENINGS.black

/-! ## Named score terms

One definition per `score +=` / `bonus +=` step of the source, used to
decompose the scoring functions for the bound proofs; the equations
`calculateTalStyleBonus_eq` / `evaluateMove_eq` below tie them to the source
translations definitionally. -/

def sacStyleTerm (move : Move) (difficulty : Profile) : ℚ :=
  match move.captured with
  | some cap =>
      if pieceValuesPawn cap < pieceValuesPawn move.piece then
        TAL_STYLE_MODIFIERS.sacrifice * difficulty.talStyleIntensity
      else 0
  | none => 0

def checkStyleTerm (move : Move) (difficulty : Profile) : ℚ :=
  if move.sanCheck then TAL_STYLE_MODIFIERS.check * difficulty.talStyleIntensity else 0

def centerStyleTerm (move : Move) (difficulty : Profile) : ℚ :=
  if move.piece = PieceType.p ∧ (move.toSq.file = 3 ∨ move.toSq.file = 4) then
    TAL_STYLE_MODIFIERS.centerControl * difficulty.talStyleIntensity
  else 0

def devStyleTerm (move : Move) (ctx : EvalCtx) (difficulty : Profile) : ℚ :=
  if ctx.history.length < 20 then
    if ((move.piece = PieceType.n ∨ move.piece = PieceType.b) ∧ move.fromSq.rank = 1)
        ∨ move.fromSq.rank = 8 then
      TAL_STYLE_MODIFIERS.pieceActivity * difficulty.talStyleIntensity
    else 0
  else 0

def retreatStyleTerm (move : Move) (difficulty : Profile) : ℚ :=
  if ((move.color = Color.white ∧ move.toSq.rank < move.fromSq.rank)
      ∨ (move.color = Color.black ∧ move.fromSq.rank < move.toSq.rank))
      ∧ move.captured = none then
    TAL_STYLE_MODIFIERS.passivePiece * difficulty.talStyleIntensity
  else 0

def kingApproachStyleTerm (move : Move) (ctx : EvalCtx) (difficulty : Profile) : ℚ :=
  match findKingSquare ctx.board (oppColor move.color) with
  | some enemyKingSquare =>
      let distBefore := squareDistance move.fromSq enemyKingSquare
      let distAfter := squareDistance move.toSq enemyKingSquare
      if distAfter < distBefore then
        TAL_STYLE_MODIFIERS.kingAttack * difficulty.talStyleIntensity
          * ((distBefore : ℚ) - (distAfter : ℚ))
      else 0
  | none => 0

def captureScoreTerm (move : Move) : ℚ :=
  match move.captured with
  | some cap => pieceValuesCp cap * 1.5
  | none => 0

def mateCheckScoreTerm (move : Move) : ℚ :=
  if move.mateAfter then 100000
  else if move.checkAfter then TAL_STYLE_MODIFIERS.check else 0

def sacrificeGateTerm (move : Move) (difficulty : Profile) : ℚ :=
  match move.captured with
  | some _ => evaluateSacrifice move difficulty
  | none => 0

def complexityScoreTerm (ctx : EvalCtx) (difficulty : Profile) : ℚ :=
  if isComplexPosition ctx then
    TAL_STYLE_MODIFIERS.complexPosition * difficulty.talStyleIntensity
  else 0

/-! ## Helper lemmas -/

theorem calculateTalStyleBonus_eq (move : Move) (ctx : EvalCtx) (difficulty : Profile) :
    calculateTalStyleBonus move ctx difficulty =
      sacStyleTerm move difficulty + checkStyleTerm move difficulty
        + centerStyleTerm move difficulty + devStyleTerm move ctx difficulty
        + retreatStyleTerm move difficulty + kingApproachStyleTerm move ctx difficulty := rfl

theorem calculateTalStyleBonusSansDev_eq (move : Move) (ctx : EvalCtx) (difficulty : Profile) :
    calculateTalStyleBonusSansDev move ctx difficulty =
      sacStyleTerm move difficulty + checkStyleTerm move difficulty
        + centerStyleTerm move difficulty
        + retreatStyleTerm move difficulty + kingApproachStyleTerm move ctx difficulty := rfl

theorem evaluateMove_eq (move : Move) (ctx : EvalCtx) (difficulty : Profile) :
    evaluateMove move ctx difficulty =
      captureScoreTerm move + calculateTalStyleBonus move ctx difficulty
        + mateCheckScoreTerm move + sacrificeGateTerm move difficulty
        + complexityScoreTerm ctx difficulty
        + evaluateKingAttack move ctx difficulty + evaluatePieceActivity move ctx := rfl

theorem evaluateMoveSansComplexity_eq (move : Move) (ctx : EvalCtx) (difficulty : Profile) :
    evaluateMoveSansComplexity move ctx difficulty =
      captureScoreTerm move + calculateTalStyleBonus move ctx difficulty
        + mateCheckScoreTerm move + sacrificeGateTerm move difficulty
        + evaluateKingAttack move ctx difficulty + evaluatePieceActivity move ctx := rfl

theorem pieceValuesPawn_bounds (t : PieceType) : 0 ≤ pieceValuesPawn t ∧ pieceValuesPawn t ≤ 9 := by
  cases t <;> norm_num [pieceValuesPawn]

theorem pieceValuesCp_bounds (t : PieceType) : 0 ≤ pieceValuesCp t ∧ pieceValuesCp t ≤ 900 := by
  cases t <;> norm_num [pieceValuesCp]

theorem squareDistance_le_14 {a b : Square} (ha : ValidSq a) (hb : ValidSq b) :
    squareDistance a b ≤ 14 := by
  obtain ⟨ha1, ha2, ha3⟩ := ha
  obtain ⟨hb1, hb2, hb3⟩ := hb
  unfold squareDistance
  omega

theorem findKingSquare_valid {board : Board} {color : Color} {k : Square}
    (h : findKingSquare board color = some k) : ValidSq k := by
  unfold findKingSquare at h
  obtain ⟨row, hrow, h2⟩ := List.exists_of_findSome?_eq_some h
  obtain ⟨col, hcol, h3⟩ := List.exists_of_findSome?_eq_some h2
  rw [List.mem_range] at hrow hcol
  split at h3
  · split at h3
    · obtain rfl : (⟨col, 8 - row⟩ : Square) = k := by simpa using h3
      exact ⟨hcol, by dsimp only; omega, by dsimp only; omega⟩
    · simp at h3
  · simp at h3

theorem sacStyleTerm_bounds (move : Move) (difficulty : Profile)
    (hi0 : 0 ≤ difficulty.talStyleIntensity) (hi1 : difficulty.talStyleIntensity ≤ 1) :
    0 ≤ sacStyleTerm move difficulty ∧ sacStyleTerm move difficulty ≤ 150 := by
  unfold sacStyleTerm TAL_STYLE_MODIFIERS.sacrifice
  rcases move.captured with _ | cap
  · norm_num
  · dsimp only
    split <;> constructor <;> nlinarith

theorem checkStyleTerm_bounds (move : Move) (difficulty : Profile)
    (hi0 : 0 ≤ difficulty.talStyleIntensity) (hi1 : difficulty.talStyleIntensity ≤ 1) :
    0 ≤ checkStyleTerm move difficulty ∧ checkStyleTerm move difficulty ≤ 80 := by
  unfold checkStyleTerm TAL_STYLE_MODIFIERS.check
  split <;> constructor <;> nlinarith

theorem centerStyleTerm_bounds (move : Move) (difficulty : Profile)
    (hi0 : 0 ≤ difficulty.talStyleIntensity) (hi1 : difficulty.talStyleIntensity ≤ 1) :
    0 ≤ centerStyleTerm move difficulty ∧ centerStyleTerm move difficulty ≤ 50 := by
  unfold centerStyleTerm TAL_STYLE_MODIFIERS.centerControl
  split <;> constructor <;> nlinarith

theorem devStyleTerm_bounds (move : Move) (ctx : EvalCtx) (difficulty : Profile)
    (hi0 : 0 ≤ difficulty.talStyleIntensity) (hi1 : difficulty.talStyleIntensity ≤ 1) :
    0 ≤ devStyleTerm move ctx difficulty ∧ devStyleTerm move ctx difficulty ≤ 40 := by
  unfold devStyleTerm TAL_STYLE_MODIFIERS.pieceActivity
  split_ifs <;> constructor <;> nlinarith

theorem retreatStyleTerm_bounds (move : Move) (difficulty : Profile)
    (hi0 : 0 ≤ difficulty.talStyleIntensity) (hi1 : difficulty.talStyleIntensity ≤ 1) :
    -50 ≤ retreatStyleTerm move difficulty ∧ retreatStyleTerm move difficulty ≤ 0 := by
  unfold retreatStyleTerm TAL_STYLE_MODIFIERS.passivePiece
  split <;> constructor <;> nlinarith

theorem kingApproachStyleTerm_bounds (move : Move) (ctx : EvalCtx) (difficulty : Profile)
    (hfrom : ValidSq move.fromSq)
    (hi0 : 0 ≤ difficulty.talStyleIntensity) (hi1 : difficulty.talStyleIntensity ≤ 1) :
    0 ≤ kingApproachStyleTerm move ctx difficulty
      ∧ kingApproachStyleTerm move ctx difficulty ≤ 1400 := by
  unfold kingApproachStyleTerm TAL_STYLE_MODIFIERS.kingAttack
  rcases hk : findKingSquare ctx.board (oppColor move.color) with _ | k
  · norm_num
  · have hkv := findKingSquare_valid hk
    have hd : ((squareDistance move.fromSq k : ℕ) : ℚ) ≤ 14 := by
      exact_mod_cast squareDistance_le_14 hfrom hkv
    have hd0 : (0 : ℚ) ≤ ((squareDistance move.toSq k : ℕ) : ℚ) := Nat.cast_nonneg _
    dsimp only
    split
    · rename_i hlt
      have hltq : ((squareDistance move.toSq k : ℕ) : ℚ) < ((squareDistance move.fromSq k : ℕ) : ℚ) := by
        exact_mod_cast hlt
      constructor <;> nlinarith
    · norm_num

theorem calculateTalStyleBonus_bounds (move : Move) (ctx : EvalCtx) (difficulty : Profile)
    (hfrom : ValidSq move.fromSq)
    (hi0 : 0 ≤ difficulty.talStyleIntensity) (hi1 : difficulty.talStyleIntensity ≤ 1) :
    -50 ≤ calculateTalStyleBonus move ctx difficulty
      ∧ calculateTalStyleBonus move ctx difficulty ≤ 1720 := by
  rw [calculateTalStyleBonus_eq]
  obtain ⟨h1, h2⟩ := sacStyleTerm_bounds move difficulty hi0 hi1
  obtain ⟨h3, h4⟩ := checkStyleTerm_bounds move difficulty hi0 hi1
  obtain ⟨h5, h6⟩ := centerStyleTerm_bounds move difficulty hi0 hi1
  obtain ⟨h7, h8⟩ := devStyleTerm_bounds move ctx difficulty hi0 hi1
  obtain ⟨h9, h10⟩ := retreatStyleTerm_bounds move difficulty hi0 hi1
  obtain ⟨h11, h12⟩ := kingApproachStyleTerm_bounds move ctx difficulty hfrom hi0 hi1
  constructor <;> linarith

theorem captureScoreTerm_bounds (move : Move) :
    0 ≤ captureScoreTerm move ∧ captureScoreTerm move ≤ 1350 := by
  unfold captureScoreTerm
  rcases move.captured with _ | cap
  · norm_num
  · obtain ⟨h1, h2⟩ := pieceValuesCp_bounds cap
    dsimp only
    constructor <;> nlinarith

theorem mateCheckScoreTerm_of_mate (move : Move) (h : move.mateAfter = true) :
    mateCheckScoreTerm move = 100000 := by
  unfold mateCheckScoreTerm
  rw [h]
  norm_num

theorem mateCheckScoreTerm_bounds_of_not_mate (move : Move) (h : move.mateAfter = false) :
    0 ≤ mateCheckScoreTerm move ∧ mateCheckScoreTerm move ≤ 80 := by
  unfold mateCheckScoreTerm TAL_STYLE_MODIFIERS.check
  simp only [h, Bool.false_eq_true, if_false]
  split <;> norm_num

theorem evaluateSacrifice_bounds (move : Move) (difficulty : Profile)
    (hi0 : 0 ≤ difficulty.talStyleIntensity) (hi1 : difficulty.talStyleIntensity ≤ 1) :
    0 ≤ evaluateSacrifice move difficulty ∧ evaluateSacrifice move difficulty ≤ 950 := by
  unfold evaluateSacrifice
  obtain ⟨hp1, hp2⟩ := pieceValuesPawn_bounds move.piece
  rcases move.captured with _ | cap
  · dsimp only
    split_ifs <;> constructor <;> nlinarith
  · obtain ⟨hc1, hc2⟩ := pieceValuesPawn_bounds cap
    dsimp only
    split_ifs <;> constructor <;> nlinarith

theorem sacrificeGateTerm_bounds (move : Move) (difficulty : Profile)
    (hi0 : 0 ≤ difficulty.talStyleIntensity) (hi1 : difficulty.talStyleIntensity ≤ 1) :
    0 ≤ sacrificeGateTerm move difficulty ∧ sacrificeGateTerm move difficulty ≤ 950 := by
  unfold sacrificeGateTerm
  rcases move.captured with _ | cap
  · norm_num
  · exact evaluateSacrifice_bounds move difficulty hi0 hi1

theorem complexityScoreTerm_bounds (ctx : EvalCtx) (difficulty : Profile)
    (hi0 : 0 ≤ difficulty.talStyleIntensity) (hi1 : difficulty.talStyleIntensity ≤ 1) :
    0 ≤ complexityScoreTerm ctx difficulty ∧ complexityScoreTerm ctx difficulty ≤ 60 := by
  unfold complexityScoreTerm TAL_STYLE_MODIFIERS.complexPosition
  split <;> constructor <;> nlinarith

theorem evaluateKingAttack_bounds (move : Move) (ctx : EvalCtx) (difficulty : Profile)
    (hfrom : ValidSq move.fromSq)
    (hi0 : 0 ≤ difficulty.talStyleIntensity) (hi1 : difficulty.talStyleIntensity ≤ 1) :
    0 ≤ evaluateKingAttack move ctx difficulty ∧ evaluateKingAttack move ctx difficulty ≤ 310 := by
  unfold evaluateKingAttack
  rcases hk : findKingSquare ctx.board (oppColor ctx.turn) with _ | k
  · norm_num
  · have hkv := findKingSquare_valid hk
    have hd : ((squareDistance move.fromSq k : ℕ) : ℚ) ≤ 14 := by
      exact_mod_cast squareDistance_le_14 hfrom hkv
    have hd0 : (0 : ℚ) ≤ ((squareDistance move.toSq k : ℕ) : ℚ) := Nat.cast_nonneg _
    dsimp only
    split_ifs with h1 h2 h2
    · have hltq : ((squareDistance move.toSq k : ℕ) : ℚ) < ((squareDistance move.fromSq k : ℕ) : ℚ) := by
        exact_mod_cast h1
      constructor <;> nlinarith
    · have hltq : ((squareDistance move.toSq k : ℕ) : ℚ) < ((squareDistance move.fromSq k : ℕ) : ℚ) := by
        exact_mod_cast h1
      constructor <;> nlinarith
    · constructor <;> nlinarith
    · norm_num

theorem evaluatePieceActivity_bounds (move : Move) (ctx : EvalCtx) :
    -15 ≤ evaluatePieceActivity move ctx ∧ evaluatePieceActivity move ctx ≤ 45 := by
  unfold evaluatePieceActivity
  cases hc : ([⟨3, 4⟩, ⟨3, 5⟩, ⟨4, 4⟩, ⟨4, 5⟩, ⟨2, 4⟩, ⟨2, 5⟩, ⟨5, 4⟩, ⟨5, 5⟩] : List Square).contains move.toSq <;>
    simp only [hc, if_true, if_false, Bool.false_eq_true] <;>
    constructor <;> split_ifs <;> norm_num

/-- C1: in a fixed position, any legal move whose application yields
checkmate scores strictly higher under `evaluateMove` than any legal move
that does not, whatever the other scoring terms contribute: the +100000
checkmate term dominates every other term's range. Hence, after the
descending sort in `calculateBestMove`, a mating move always outranks every
non-mating one. -/
theorem mating_move_outranks_non_mating (move move' : Move) (ctx : EvalCtx) (difficulty : Profile)
    (hi0 : 0 ≤ difficulty.talStyleIntensity) (hi1 : difficulty.talStyleIntensity ≤ 1)
    (hfrom : ValidSq move.fromSq) (hfrom' : ValidSq move'.fromSq)
    (hmate : move.mateAfter = true) (hmate' : move'.mateAfter = false) :
    evaluateMove move' ctx difficulty < evaluateMove move ctx difficulty := by
  rw [evaluateMove_eq, evaluateMove_eq]
  obtain ⟨a1, a2⟩ := captureScoreTerm_bounds move
  obtain ⟨b1, b2⟩ := calculateTalStyleBonus_bounds move ctx difficulty hfrom hi0 hi1
  have c1 := mateCheckScoreTerm_of_mate move hmate
  obtain ⟨d1, d2⟩ := sacrificeGateTerm_bounds move difficulty hi0 hi1
  obtain ⟨e1, e2⟩ := complexityScoreTerm_bounds ctx difficulty hi0 hi1
  obtain ⟨f1, f2⟩ := evaluateKingAttack_bounds move ctx difficulty hfrom hi0 hi1
  obtain ⟨g1, g2⟩ := evaluatePieceActivity_bounds move ctx
  obtain ⟨a1', a2'⟩ := captureScoreTerm_bounds move'
  obtain ⟨b1', b2'⟩ := calculateTalStyleBonus_bounds move' ctx difficulty hfrom' hi0 hi1
  obtain ⟨c1', c2'⟩ := mateCheckScoreTerm_bounds_of_not_mate move' hmate'
  obtain ⟨d1', d2'⟩ := sacrificeGateTerm_bounds move' difficulty hi0 hi1
  obtain ⟨f1', f2'⟩ := evaluateKingAttack_bounds move' ctx difficulty hfrom' hi0 hi1
  obtain ⟨g1', g2'⟩ := evaluatePieceActivity_bounds move' ctx
  linarith

/-- Witness for C1: a concrete mating queen move outscores the identical
non-mating move in a concrete position. -/
theorem mating_move_outranks_non_mating_witness :
    evaluateMove
        { piece := PieceType.q, color := Color.white, fromSq := ⟨3, 1⟩, toSq := ⟨3, 4⟩,
          captured := none, promotion := none, sanCheck := false, mateAfter := false,
          checkAfter := false, attackReplies := 0 }
        { board := List.replicate 8 (List.replicate 8 none), turn := Color.white,
          history := [], legalMoves := [] }
        DIFFICULTY_LEVELS.legend
      < evaluateMove
        { piece := PieceType.q, color := Color.white, fromSq := ⟨3, 1⟩, toSq := ⟨3, 4⟩,
          captured := none, promotion := none, sanCheck := false, mateAfter := true,
          checkAfter := false, attackReplies := 0 }
        { board := List.replicate 8 (List.replicate 8 none), turn := Color.white,
          history := [], legalMoves := [] }
        DIFFICULTY_LEVELS.legend :=
  mating_move_outranks_non_mating _ _ _ _
    (by norm_num [DIFFICULTY_LEVELS.legend]) (by norm_num [DIFFICULTY_LEVELS.legend])
    (by decide) (by decide) rfl rfl

/-- C7: under the Legend profile (`mistakeRate = 0`) the mistake check
`Math.random() < mistakeRate` is false for every nonnegative random draw, so
`calculateBestMove` never returns a move through the mistake path
(`getRandomMove`), whatever the position and the other draws. -/
theorem legend_never_takes_mistake_path (r1 : ℚ) (hr : 0 ≤ r1) :
    shouldMakeMistake DIFFICULTY_LEVELS.legend r1 = false
    ∧ ∀ (ctx : EvalCtx) (r2 : ℚ) (m : EngineMove),
        calculateBestMove ctx DIFFICULTY_LEVELS.legend r1 r2 ≠ some (CalcResult.mistake m) := by
  have hmist : shouldMakeMistake DIFFICULTY_LEVELS.legend r1 = false := by
    simp only [shouldMakeMistake, DIFFICULTY_LEVELS.legend, decide_eq_false_iff_not, not_lt]
    exact hr
  refine ⟨hmist, fun ctx r2 m hEq => ?_⟩
  unfold calculateBestMove at hEq
  rw [hmist] at hEq
  simp only [Bool.false_eq_true, if_false] at hEq
  split at hEq
  · exact Option.noConfusion hEq
  · simp at hEq

/-- Witness for C7 at a concrete draw, position, and move. -/
theorem legend_never_takes_mistake_path_witness :
    shouldMakeMistake DIFFICULTY_LEVELS.legend (1/2) = false
    ∧ calculateBestMove
        { board := [], turn := Color.white, history := [], legalMoves := [] }
        DIFFICULTY_LEVELS.legend (1/2) 0
      ≠ some (CalcResult.mistake ⟨⟨0, 1⟩, ⟨0, 2⟩, none⟩) :=
  ⟨(legend_never_takes_mistake_path (1/2) (by norm_num)).1,
    (legend_never_takes_mistake_path (1/2) (by norm_num)).2
      { board := [], turn := Color.white, history := [], legalMoves := [] } 0
      ⟨⟨0, 1⟩, ⟨0, 2⟩, none⟩⟩

/-- C6 counterexample: calling `switchTimer` with no active side under the
finite `blitz` preset is not a no-op — it flips `activeTimer` from `none` to
`player` (the ternary `activeTimer === 'player' ? 'opponent' : 'player'`
treats `null` like any non-player value). -/
theorem switchTimer_without_active_side_not_noop :
    (TimerManager.switchTimer
        (TimerManager.init TimerManager.initialState ("blitz"))).activeTimer
      = some Side.player
    ∧ (TimerManager.init TimerManager.initialState ("blitz")).activeTimer = none := by
  constructor <;> rfl

/-- C6 (amended): calling `switchTimer` when no side is active under a finite
(non-unlimited) preset leaves both sides' remaining times unchanged, but it
is not a full no-op: `activeTimer` is set from `none` to `player`. -/
theorem switchTimer_no_active_side_times_unchanged (s : TimerState)
    (hc : s.currentTimeControl ≠ "unlimited") (ha : s.activeTimer = none) :
    (TimerManager.switchTimer s).playerTime = s.playerTime
    ∧ (TimerManager.switchTimer s).opponentTime = s.opponentTime
    ∧ (TimerManager.switchTimer s).activeTimer = some Side.player := by
  unfold TimerManager.switchTimer
  rw [if_neg hc, ha]
  simp

/-- Witness for the amended C6 at the just-initialized blitz state. -/
theorem switchTimer_no_active_side_times_unchanged_witness :
    (TimerManager.switchTimer
        (TimerManager.init TimerManager.initialState ("blitz"))).playerTime
      = (TimerManager.init TimerManager.initialState ("blitz")).playerTime
    ∧ (TimerManager.switchTimer
        (TimerManager.init TimerManager.initialState ("blitz"))).opponentTime
      = (TimerManager.init TimerManager.initialState ("blitz")).opponentTime
    ∧ (TimerManager.switchTimer
        (TimerManager.init TimerManager.initialState ("blitz"))).activeTimer
      = some Side.player :=
  switchTimer_no_active_side_times_unchanged _ (by decide) rfl

/-- C8: for a capturing move, `evaluateSacrifice` is nonzero only if the
moving piece's 1/3/3/5/9 value strictly exceeds the captured piece's; in that
case it is exactly the sum of a continuation bonus proportional to the
material deficit (present exactly when more than two checking/capturing
replies exist) and a flat bonus (present exactly when the deficit is within
`|sacrificeThreshold|`); a pawn capturing a queen gets neither. -/
theorem evaluateSacrifice_characterization (move : Move) (difficulty : Profile)
    (cap : PieceType) (hc : move.captured = some cap) :
    (evaluateSacrifice move difficulty ≠ 0 →
      pieceValuesPawn cap < pieceValuesPawn move.piece)
    ∧ (pieceValuesPawn cap < pieceValuesPawn move.piece →
        evaluateSacrifice move difficulty =
          (if 2 < move.attackReplies then
              (100 * (pieceValuesPawn move.piece - pieceValuesPawn cap))
                * difficulty.talStyleIntensity
            else 0)
          + (if pieceValuesPawn move.piece - pieceValuesPawn cap
                ≤ |difficulty.sacrificeThreshold| then
              50 * difficulty.talStyleIntensity
            else 0))
    ∧ (move.piece = PieceType.p → cap = PieceType.q →
        evaluateSacrifice move difficulty = 0) := by
  unfold evaluateSacrifice
  simp only [hc]
  refine ⟨?_, ?_, ?_⟩
  · intro hne
    by_contra hnlt
    rw [if_neg hnlt] at hne
    exact hne rfl
  · intro hlt
    rw [if_pos hlt]
  · intro hp hq
    rw [hp, hq]
    norm_num [pieceValuesPawn]

/-- Witness for C8: a concrete rook-takes-pawn move. -/
theorem evaluateSacrifice_characterization_witness :
    (evaluateSacrifice
        { piece := PieceType.r, color := Color.white, fromSq := ⟨0, 1⟩, toSq := ⟨0, 5⟩,
          captured := some PieceType.p, promotion := none, sanCheck := false,
          mateAfter := false, checkAfter := false, attackReplies := 0 }
        DIFFICULTY_LEVELS.legend ≠ 0 →
      pieceValuesPawn PieceType.p < pieceValuesPawn PieceType.r)
    ∧ (pieceValuesPawn PieceType.p < pieceValuesPawn PieceType.r →
        evaluateSacrifice
          { piece := PieceType.r, color := Color.white, fromSq := ⟨0, 1⟩, toSq := ⟨0, 5⟩,
            captured := some PieceType.p, promotion := none, sanCheck := false,
            mateAfter := false, checkAfter := false, attackReplies := 0 }
          DIFFICULTY_LEVELS.legend =
          (if 2 < (0 : ℕ) then
              (100 * (pieceValuesPawn PieceType.r - pieceValuesPawn PieceType.p))
                * DIFFICULTY_LEVELS.legend.talStyleIntensity
            else 0)
          + (if pieceValuesPawn PieceType.r - pieceValuesPawn PieceType.p
                ≤ |DIFFICULTY_LEVELS.legend.sacrificeThreshold| then
              50 * DIFFICULTY_LEVELS.legend.talStyleIntensity
            else 0))
    ∧ (PieceType.r = PieceType.p → PieceType.p = PieceType.q →
        evaluateSacrifice
          { piece := PieceType.r, color := Color.white, fromSq := ⟨0, 1⟩, toSq := ⟨0, 5⟩,
            captured := some PieceType.p, promotion := none, sanCheck := false,
            mateAfter := false, checkAfter := false, attackReplies := 0 }
          DIFFICULTY_LEVELS.legend = 0) :=
  evaluateSacrifice_characterization _ DIFFICULTY_LEVELS.legend PieceType.p rfl

/-- C10: in `calculateTalStyleBonus` the opening development bonus is
governed by the condition
`(knight-or-bishop AND origin-rank 1) OR origin-rank 8` (the JS `&&` binds
tighter than `||`): within the first 20 plies every move from rank 8 earns
the piece-activity bonus regardless of piece type, while a move from rank 1
earns it only for a knight or bishop. -/
theorem development_bonus_condition (move : Move) (ctx : EvalCtx) (difficulty : Profile) :
    (calculateTalStyleBonus move ctx difficulty =
      calculateTalStyleBonusSansDev move ctx difficulty
      + (if ctx.history.length < 20 then
          if ((move.piece = PieceType.n ∨ move.piece = PieceType.b) ∧ move.fromSq.rank = 1)
              ∨ move.fromSq.rank = 8 then
            TAL_STYLE_MODIFIERS.pieceActivity * difficulty.talStyleIntensity
          else 0
        else 0))
    ∧ (ctx.history.length < 20 → move.fromSq.rank = 8 →
        calculateTalStyleBonus move ctx difficulty =
          calculateTalStyleBonusSansDev move ctx difficulty
            + TAL_STYLE_MODIFIERS.pieceActivity * difficulty.talStyleIntensity)
    ∧ (ctx.history.length < 20 → move.fromSq.rank = 1
        → ¬(move.piece = PieceType.n ∨ move.piece = PieceType.b) →
        calculateTalStyleBonus move ctx difficulty =
          calculateTalStyleBonusSansDev move ctx difficulty) := by
  have hdecomp : calculateTalStyleBonus move ctx difficulty =
      calculateTalStyleBonusSansDev move ctx difficulty + devStyleTerm move ctx difficulty := by
    rw [calculateTalStyleBonus_eq, calculateTalStyleBonusSansDev_eq]
    ring
  refine ⟨by rw [hdecomp]; rfl, ?_, ?_⟩
  · intro h20 h8
    rw [hdecomp]
    unfold devStyleTerm
    rw [if_pos h20, if_pos (Or.inr h8)]
  · intro h20 h1 hnb
    rw [hdecomp]
    unfold devStyleTerm
    rw [if_pos h20, if_neg, add_zero]
    rintro (⟨hp, _⟩ | h8)
    · exact hnb hp
    · rw [h1] at h8
      exact absurd h8 (by norm_num)

/-- Witness for C10: within the first 20 plies a black king moving off rank 8
receives the development bonus (the second conjunct applied concretely). -/
theorem development_bonus_condition_witness :
    calculateTalStyleBonus
        { piece := PieceType.k, color := Color.black, fromSq := ⟨4, 8⟩, toSq := ⟨4, 7⟩,
          captured := none, promotion := none, sanCheck := false, mateAfter := false,
          checkAfter := false, attackReplies := 0 }
        { board := List.replicate 8 (List.replicate 8 none), turn := Color.white,
          history := [], legalMoves := [] }
        DIFFICULTY_LEVELS.legend =
      calculateTalStyleBonusSansDev
        { piece := PieceType.k, color := Color.black, fromSq := ⟨4, 8⟩, toSq := ⟨4, 7⟩,
          captured := none, promotion := none, sanCheck := false, mateAfter := false,
          checkAfter := false, attackReplies := 0 }
        { board := List.replicate 8 (List.replicate 8 none), turn := Color.white,
          history := [], legalMoves := [] }
        DIFFICULTY_LEVELS.legend
        + TAL_STYLE_MODIFIERS.pieceActivity * DIFFICULTY_LEVELS.legend.talStyleIntensity :=
  (development_bonus_condition _ _ _).2.1 (by decide) rfl

/-- C2: the opening-book lookup key keeps the first four FEN fields, which
include the en-passant square. chess.js serializes the position after 1.e4
with en-passant square `e3`, while the stored key for that position ends in
`-`, so on the actual post-1.e4 FEN the book misses (first conjunct) and
selection falls through to heuristic scoring instead of returning c7c5. The
entry only fires on a FEN whose en-passant field is `-` (second conjunct),
which exhibits the intended binding of the stored `c7c5` reply. -/
theorem bookLookup_misses_position_after_e4 :
    (∀ r : ℚ,
      getOpeningBookMove
          ("rnbqkbnr/pppppppp/8/8/4P3/8/PPPP1PPP/RNBQKBNR b KQkq e3 0 1".toList)
          Color.black r = none)
    ∧ getOpeningBookMove
          ("rnbqkbnr/pppppppp/8/8/4P3/8/PPPP1PPP/RNBQKBNR b KQkq - 0 1".toList)
          Color.black (1/2)
        = some ⟨"c7".toList, "c5".toList, none⟩ := by
  constructor
  · intro r
    rfl
  · have hidx : jsFloorIdx (1/2 : ℚ) 1 = 0 := by
      unfold jsFloorIdx
      norm_num
    show (match (["c7c5".toList] : List (List Char))[jsFloorIdx (1/2 : ℚ)
            (["c7c5".toList] : List (List Char)).length]? with
          | some selectedMove => convertToMoveObject selectedMove
          | none => none)
        = some ⟨"c7".toList, "c5".toList, none⟩
    rw [show ((["c7c5".toList] : List (List Char)).length) = 1 from rfl, hidx]
    rfl

theorem getBestMove_eq_match (fen : List Char) (playerColor : Color) (ctx : EvalCtx)
    (difficulty : Profile) (rBook r1 r2 : ℚ) :
    getBestMove fen playerColor ctx difficulty rBook r1 r2 =
      match getOpeningBookMove fen
          (if playerColor = Color.white then Color.black else Color.white) rBook with
      | some bookMove => some (Sel.book bookMove)
      | none => (calculateBestMove ctx difficulty r1 r2).map Sel.engine := rfl

theorem getOpeningBookMove_eq_match (fen : List Char) (color : Color) (r : ℚ) :
    getOpeningBookMove fen color r =
      match (bookFor color).find? (fun e => (simpleFen e.1).isPrefixOf (simpleFen fen)) with
      | some e =>
          match e.2[jsFloorIdx r e.2.length]? with
          | some selectedMove => convertToMoveObject selectedMove
          | none => none
      | none => none := rfl

/-- C5: opening-book lookup is first-match-wins in declaration order. If the
side's table splits as `pre ++ e :: post` where `e`'s key is a prefix of the
queried key and no entry of `pre` matches, the selected move comes from `e`'s
candidate list only, and `getBestMove` returns it as a book move for every
evaluation context and profile — the heuristic scorer is never consulted. If
no entry matches, the lookup is empty and `getBestMove` defers entirely to
`calculateBestMove`. -/
theorem openingBook_first_match_wins (fen : List Char) (playerColor talColor : Color)
    (htal : talColor = if playerColor = Color.white then Color.black else Color.white)
    (rb : ℚ) (hr0 : 0 ≤ rb) (hr1 : rb < 1) :
    (∀ pre e post,
        bookFor talColor = pre ++ e :: post →
        (simpleFen e.1).isPrefixOf (simpleFen fen) = true →
        (∀ e' ∈ pre, (simpleFen e'.1).isPrefixOf (simpleFen fen) = false) →
        e.2 ≠ [] →
        ∃ uci ∈ e.2,
          getOpeningBookMove fen talColor rb = convertToMoveObject uci
          ∧ ∀ m : BookMove, convertToMoveObject uci = some m →
              ∀ (ctx : EvalCtx) (difficulty : Profile) (r1 r2 : ℚ),
                getBestMove fen playerColor ctx difficulty rb r1 r2 = some (Sel.book m))
    ∧ ((∀ e ∈ bookFor talColor, (simpleFen e.1).isPrefixOf (simpleFen fen) = false) →
        getOpeningBookMove fen talColor rb = none
        ∧ ∀ (ctx : EvalCtx) (difficulty : Profile) (r1 r2 : ℚ),
            getBestMove fen playerColor ctx difficulty rb r1 r2
              = (calculateBestMove ctx difficulty r1 r2).map Sel.engine) := by
  constructor
  · intro pre e post hsplit hmatch hpre hne
    have hfind : (bookFor talColor).find?
        (fun x => (simpleFen x.1).isPrefixOf (simpleFen fen)) = some e := by
      rw [hsplit, List.find?_append]
      have hprenone : pre.find? (fun x => (simpleFen x.1).isPrefixOf (simpleFen fen)) = none :=
        List.find?_eq_none.mpr fun x hx => by rw [hpre x hx]; simp
      rw [hprenone, Option.none_or]
      exact List.find?_cons_of_pos post hmatch
    have hlen : 0 < e.2.length := List.length_pos.mpr hne
    have hidxlt : jsFloorIdx rb e.2.length < e.2.length := by
      unfold jsFloorIdx
      have hlenq : (0 : ℚ) < (e.2.length : ℚ) := by exact_mod_cast hlen
      have h1 : Int.floor (rb * (e.2.length : ℚ)) < (e.2.length : ℤ) := by
        rw [Int.floor_lt]
        push_cast
        nlinarith
      omega
    have huci : e.2[jsFloorIdx rb e.2.length]?
        = some (e.2.get ⟨jsFloorIdx rb e.2.length, hidxlt⟩) := by
      rw [List.getElem?_eq_getElem hidxlt, List.get_eq_getElem]
    have hlookup : getOpeningBookMove fen talColor rb
        = convertToMoveObject (e.2.get ⟨jsFloorIdx rb e.2.length, hidxlt⟩) := by
      rw [getOpeningBookMove_eq_match, hfind]
      simp only [huci]
    refine ⟨e.2.get ⟨jsFloorIdx rb e.2.length, hidxlt⟩, List.get_mem _ _ hidxlt, hlookup, ?_⟩
    intro m hm ctx difficulty r1 r2
    rw [getBestMove_eq_match, ← htal, hlookup, hm]
  · intro hnone
    have hfind : (bookFor talColor).find?
        (fun x => (simpleFen x.1).isPrefixOf (simpleFen fen)) = none :=
      List.find?_eq_none.mpr fun x hx => by rw [hnone x hx]; simp
    have hlookup : getOpeningBookMove fen talColor rb = none := by
      rw [getOpeningBookMove_eq_match, hfind]
    refine ⟨hlookup, fun ctx difficulty r1 r2 => ?_⟩
    rw [getBestMove_eq_match, ← htal, hlookup]

/-- Witness for C5: with the human playing black, Tal (white) finds the
initial position in its book (the first white entry) and `getBestMove`
returns 1.e4 as a book move without consulting the scorer. -/
theorem openingBook_first_match_wins_witness :
    getOpeningBookMove ("rnbqkbnr/pppppppp/8/8/8/8/PPPPPPPP/RNBQKBNR w KQkq - 0 1".toList)
        Color.white 0 = some ⟨"e2".toList, "e4".toList, none⟩
    ∧ getBestMove ("rnbqkbnr/pppppppp/8/8/8/8/PPPPPPPP/RNBQKBNR w KQkq - 0 1".toList)
        Color.black
        { board := [], turn := Color.white, history := [], legalMoves := [] }
        DIFFICULTY_LEVELS.legend 0 0 0
      = some (Sel.book ⟨"e2".toList, "e4".toList, none⟩) := by
  obtain ⟨uci, hmem, hlookup, hbest⟩ :=
    (openingBook_first_match_wins
        ("rnbqkbnr/pppppppp/8/8/8/8/PPPPPPPP/RNBQKBNR w KQkq - 0 1".toList)
        Color.black Color.white rfl 0 le_rfl (by norm_num)).1
      [] ("rnbqkbnr/pppppppp/8/8/8/8/PPPPPPPP/RNBQKBNR w KQkq -".toList, ["e2e4".toList])
      TAL_OPENINGS.white.tail rfl rfl
      (fun e' he' => absurd he' (List.not_mem_nil e'))
      (by simp)
  rw [List.mem_singleton] at hmem
  subst hmem
  have hconv : convertToMoveObject ("e2e4".toList)
      = some ⟨"e2".toList, "e4".toList, none⟩ := rfl
  exact ⟨hlookup.trans hconv,
    hbest _ hconv { board := [], turn := Color.white, history := [], legalMoves := [] }
      DIFFICULTY_LEVELS.legend 0 0⟩

theorem insertDesc_map_shift (c : ℚ) (m : Move) (x : ℚ) (l : List (Move × ℚ)) :
    insertDesc (m, x + c) (l.map fun p => (p.1, p.2 + c))
      = (insertDesc (m, x) l).map fun p => (p.1, p.2 + c) := by
  induction l with
  | nil => rfl
  | cons q t ih =>
      simp only [List.map_cons, insertDesc]
      by_cases h : q.2 ≤ x
      · rw [if_pos h, if_pos (show q.2 + c ≤ x + c by linarith)]
        simp
      · rw [if_neg h, if_neg (show ¬(q.2 + c ≤ x + c) from fun hq => h (by linarith))]
        simp [ih]

theorem sortDesc_map_shift (c : ℚ) (l : List (Move × ℚ)) :
    sortDesc (l.map fun p => (p.1, p.2 + c)) = (sortDesc l).map fun p => (p.1, p.2 + c) := by
  induction l with
  | nil => rfl
  | cons a t ih =>
      simp only [List.map_cons, sortDesc, ih]
      exact insertDesc_map_shift c a.1 a.2 (sortDesc t)

/-- C9: the complexity bonus in `evaluateMove` depends only on the pre-move
game state (`isComplexPosition game`), not on the candidate move, so within
one selection it shifts every candidate's score by the same constant; since
the sort comparator and pool size are invariant under a common shift,
`calculateBestMove` selects exactly the same move with or without the
complexity term. -/
theorem complexity_bonus_never_changes_selection (ctx : EvalCtx) (difficulty : Profile)
    (r1 r2 : ℚ) :
    (∀ move : Move,
        evaluateMove move ctx difficulty =
          evaluateMoveSansComplexity move ctx difficulty
          + (if isComplexPosition ctx then
              TAL_STYLE_MODIFIERS.complexPosition * difficulty.talStyleIntensity
            else 0))
    ∧ calculateBestMove ctx difficulty r1 r2
        = calculateBestMoveSansComplexity ctx difficulty r1 r2 := by
  have hshift : ∀ move : Move,
      evaluateMove move ctx difficulty =
        evaluateMoveSansComplexity move ctx difficulty + complexityScoreTerm ctx difficulty := by
    intro move
    rw [evaluateMove_eq, evaluateMoveSansComplexity_eq]
    ring
  refine ⟨fun move => hshift move, ?_⟩
  unfold calculateBestMove calculateBestMoveSansComplexity
  by_cases hlen : ctx.legalMoves.length = 0
  · rw [if_pos hlen, if_pos hlen]
  · rw [if_neg hlen, if_neg hlen]
    by_cases hmist : shouldMakeMistake difficulty r1 = true
    · rw [if_pos hmist, if_pos hmist]
    · rw [if_neg hmist, if_neg hmist]
      dsimp only
      have hmap : ctx.legalMoves.map (fun move => (move, evaluateMove move ctx difficulty))
          = (ctx.legalMoves.map fun move =>
              (move, evaluateMoveSansComplexity move ctx difficulty)).map
              (fun p => (p.1, p.2 + complexityScoreTerm ctx difficulty)) := by
        rw [List.map_map]
        exact List.map_congr_left fun mv _ => by simp [hshift mv]
      rw [hmap, sortDesc_map_shift, ← List.map_take]
      simp only [List.length_map, List.getElem?_map, Option.map_map]
      congr 1

theorem JSNum.nonneg_of_le0_false (x : JSNum) (h : x.le0 = false) : x.nonneg = true := by
  cases x with
  | fin q =>
      simp only [JSNum.le0, decide_eq_false_iff_not, not_le] at h
      simp only [JSNum.nonneg, decide_eq_true_eq]
      linarith
  | inf => rfl

theorem JSNum.nonneg_add (x : JSNum) (d : ℚ) (hx : x.nonneg = true) (hd : 0 ≤ d) :
    (x.add d).nonneg = true := by
  cases x with
  | fin q =>
      simp only [JSNum.nonneg, decide_eq_true_eq] at hx
      simp only [JSNum.add, JSNum.nonneg, decide_eq_true_eq]
      linarith
  | inf => rfl

theorem init_invariant (s : TimerState) (k : String) :
    (TimerManager.init s k).playerTime.nonneg = true
    ∧ (TimerManager.init s k).opponentTime.nonneg = true
    ∧ 0 ≤ (TimerManager.init s k).increment
    ∧ (TimerManager.init s k).activeTimer = none := by
  unfold TimerManager.init TIME_CONTROLS.lookup
  split_ifs <;>
    refine ⟨?_, ?_, ?_, rfl⟩ <;>
    norm_num [TIME_CONTROLS.bullet, TIME_CONTROLS.blitz, TIME_CONTROLS.rapid,
      TIME_CONTROLS.classical, TIME_CONTROLS.unlimited, JSNum.nonneg, Option.getD]

theorem reachable_invariant (s : TimerState) (h : TimerManager.Reachable s) :
    s.playerTime.nonneg = true ∧ s.opponentTime.nonneg = true ∧ 0 ≤ s.increment
    ∧ (s.currentTimeControl = "unlimited" → s.activeTimer = none) := by
  induction h with
  | base =>
      refine ⟨?_, ?_, ?_, fun _ => rfl⟩ <;>
        norm_num [TimerManager.initialState, JSNum.nonneg]
  | step op hs ih =>
      obtain ⟨ih1, ih2, ih3, ih4⟩ := ih
      rename_i t
      cases op with
      | init k =>
          obtain ⟨i1, i2, i3, i4⟩ := init_invariant t k
          exact ⟨i1, i2, i3, fun _ => i4⟩
      | start side =>
          dsimp only [TimerManager.applyOp]
          unfold TimerManager.start
          split_ifs with h1
          · exact ⟨ih1, ih2, ih3, ih4⟩
          · exact ⟨ih1, ih2, ih3, fun hu => absurd hu h1⟩
      | pause => exact ⟨ih1, ih2, ih3, ih4⟩
      | resume =>
          dsimp only [TimerManager.applyOp]
          unfold TimerManager.resume
          split_ifs with h1
          · exact ⟨ih1, ih2, ih3, fun hu => absurd hu h1.2⟩
          · exact ⟨ih1, ih2, ih3, ih4⟩
      | switchTimer =>
          dsimp only [TimerManager.applyOp]
          unfold TimerManager.switchTimer
          by_cases h1 : t.currentTimeControl = "unlimited"
          · rw [if_pos h1]
            exact ⟨ih1, ih2, ih3, ih4⟩
          · rw [if_neg h1]
            cases hat : t.activeTimer with
            | none =>
                dsimp only
                exact ⟨ih1, ih2, ih3, fun hu => absurd hu h1⟩
            | some side =>
                cases side with
                | player =>
                    dsimp only
                    exact ⟨JSNum.nonneg_add _ _ ih1 ih3, ih2, ih3, fun hu => absurd hu h1⟩
                | opponent =>
                    dsimp only
                    exact ⟨ih1, JSNum.nonneg_add _ _ ih2 ih3, ih3, fun hu => absurd hu h1⟩
      | tick =>
          dsimp only [TimerManager.applyOp]
          unfold TimerManager.tick
          split_ifs with hp
          · exact ⟨ih1, ih2, ih3, ih4⟩
          · cases hat : t.activeTimer with
            | none => exact ⟨ih1, ih2, ih3, ih4⟩
            | some side =>
                have h4f : t.currentTimeControl = "unlimited" → False := fun hu => by
                  rw [ih4 hu] at hat
                  exact Option.noConfusion hat
                cases side with
                | player =>
                    dsimp only
                    split_ifs with hle
                    · exact ⟨by norm_num [JSNum.nonneg], ih2, ih3, fun hu => h4f hu⟩
                    · refine ⟨?_, ih2, ih3, fun hu => h4f hu⟩
                      exact JSNum.nonneg_of_le0_false _ (Bool.not_eq_true _ |>.mp hle)
                | opponent =>
                    dsimp only
                    split_ifs with hle
                    · exact ⟨ih1, by norm_num [JSNum.nonneg], ih3, fun hu => h4f hu⟩
                    · refine ⟨ih1, ?_, ih3, fun hu => h4f hu⟩
                      exact JSNum.nonneg_of_le0_false _ (Bool.not_eq_true _ |>.mp hle)
      | reset =>
          obtain ⟨i1, i2, i3, i4⟩ := init_invariant t t.currentTimeControl
          exact ⟨i1, i2, i3, fun _ => i4⟩

/-- C3: in every reachable clock state both remaining times are nonnegative,
and `tick` decrements at most one side — the one named by `activeTimer`: it
is the identity (and emits no callback) when paused, when no side is active
(before the first start), or under the unlimited preset, and when one side is
active the other side's remaining time is untouched. -/
theorem clock_invariant (s : TimerState) (h : TimerManager.Reachable s) :
    (s.playerTime.nonneg = true ∧ s.opponentTime.nonneg = true)
    ∧ (s.isPaused = true → TimerManager.tick s = (s, none))
    ∧ (s.activeTimer = none → TimerManager.tick s = (s, none))
    ∧ (s.currentTimeControl = "unlimited" → TimerManager.tick s = (s, none))
    ∧ (s.activeTimer = some Side.player →
        (TimerManager.tick s).1.opponentTime = s.opponentTime)
    ∧ (s.activeTimer = some Side.opponent →
        (TimerManager.tick s).1.playerTime = s.playerTime) := by
  obtain ⟨h1, h2, _h3, h4⟩ := reachable_invariant s h
  have hpaused : s.isPaused = true → TimerManager.tick s = (s, none) := by
    intro hp
    unfold TimerManager.tick
    rw [if_pos hp]
  have hnone : s.activeTimer = none → TimerManager.tick s = (s, none) := by
    intro ha
    unfold TimerManager.tick
    rw [ha]
    split_ifs <;> rfl
  refine ⟨⟨h1, h2⟩, hpaused, hnone, fun hu => hnone (h4 hu), ?_, ?_⟩
  · intro ha
    unfold TimerManager.tick
    split_ifs with hp
    · rfl
    · rw [ha]
      dsimp only
      split_ifs with hle <;> rfl
  · intro ha
    unfold TimerManager.tick
    split_ifs with hp
    · rfl
    · rw [ha]
      dsimp only
      split_ifs with hle <;> rfl

/-- Witness for C3 at the reachable constructor state. -/
theorem clock_invariant_witness :
    ((TimerManager.initialState.playerTime.nonneg = true
      ∧ TimerManager.initialState.opponentTime.nonneg = true)
    ∧ (TimerManager.initialState.isPaused = true →
        TimerManager.tick TimerManager.initialState = (TimerManager.initialState, none))
    ∧ (TimerManager.initialState.activeTimer = none →
        TimerManager.tick TimerManager.initialState = (TimerManager.initialState, none))
    ∧ (TimerManager.initialState.currentTimeControl = "unlimited" →
        TimerManager.tick TimerManager.initialState = (TimerManager.initialState, none))
    ∧ (TimerManager.initialState.activeTimer = some Side.player →
        (TimerManager.tick TimerManager.initialState).1.opponentTime
          = TimerManager.initialState.opponentTime)
    ∧ (TimerManager.initialState.activeTimer = some Side.opponent →
        (TimerManager.tick TimerManager.initialState).1.playerTime
          = TimerManager.initialState.playerTime)) :=
  clock_invariant TimerManager.initialState TimerManager.Reachable.base

theorem runTicks_add (m n : ℕ) (s : TimerState) :
    TimerManager.runTicks (m + n) s
      = ((TimerManager.runTicks n (TimerManager.runTicks m s).1).1,
          (TimerManager.runTicks m s).2
            ++ (TimerManager.runTicks n (TimerManager.runTicks m s).1).2) := by
  induction m generalizing s with
  | zero => simp [TimerManager.runTicks]
  | succ m ih =>
      rw [Nat.succ_add]
      simp only [TimerManager.runTicks, ih, List.append_assoc]

theorem runTicks_one (s : TimerState) :
    TimerManager.runTicks 1 s = ((TimerManager.tick s).1, (TimerManager.tick s).2.toList) := by
  simp [TimerManager.runTicks]

theorem runTicks_paused (n : ℕ) (s : TimerState) (h : s.isPaused = true) :
    TimerManager.runTicks n s = (s, []) := by
  have ht : TimerManager.tick s = (s, none) := by
    unfold TimerManager.tick
    rw [if_pos h]
  induction n with
  | zero => rfl
  | succ n ih => simp only [TimerManager.runTicks, ht, ih, Option.toList_none, List.nil_append]

theorem tick_running (s : TimerState) (q : ℚ) (hp : s.isPaused = false)
    (ha : s.activeTimer = some Side.player) (ht : s.playerTime = JSNum.fin q)
    (hq : 0 < q - 0.1) :
    TimerManager.tick s = ({ s with playerTime := JSNum.fin (q - 0.1) }, some Evt.ticked) := by
  unfold TimerManager.tick
  rw [hp, ha, ht]
  simp only [Bool.false_eq_true, if_false, JSNum.sub, JSNum.le0, decide_eq_true_eq]
  rw [if_neg (by linarith)]

theorem tick_timeout (s : TimerState) (q : ℚ) (hp : s.isPaused = false)
    (ha : s.activeTimer = some Side.player) (ht : s.playerTime = JSNum.fin q)
    (hq : q - 0.1 ≤ 0) :
    TimerManager.tick s
      = ({ s with playerTime := JSNum.fin 0, isPaused := true },
          some (Evt.timeout Side.player)) := by
  unfold TimerManager.tick
  rw [hp, ha, ht]
  simp only [Bool.false_eq_true, if_false, JSNum.sub, JSNum.le0, decide_eq_true_eq]
  rw [if_pos hq]

theorem runTicks_running (k : ℕ) (s : TimerState) (q : ℚ) (hp : s.isPaused = false)
    (ha : s.activeTimer = some Side.player) (ht : s.playerTime = JSNum.fin q)
    (hq : (k : ℚ) / 10 < q) :
    TimerManager.runTicks k s
      = ({ s with playerTime := JSNum.fin (q - (k : ℚ) / 10) },
          List.replicate k Evt.ticked) := by
  induction k generalizing s q with
  | zero =>
      simp only [TimerManager.runTicks, Nat.cast_zero, zero_div, sub_zero, List.replicate_zero]
      rw [← ht]
  | succ k ih =>
      have hk0 : (0 : ℚ) ≤ (k : ℚ) := Nat.cast_nonneg k
      have hkq : ((k : ℕ) + 1 : ℚ) / 10 < q := by push_cast at hq; push_cast; linarith
      have htick := tick_running s q hp ha ht (by
        have : (1 : ℚ) / 10 ≤ ((k : ℕ) + 1 : ℚ) / 10 := by linarith
        norm_num
        linarith)
      simp only [TimerManager.runTicks, htick]
      rw [ih ({ s with playerTime := JSNum.fin (q - 0.1) }) (q - 0.1) hp ha rfl
        (by push_cast; push_cast at hq; norm_num; linarith)]
      have hnum : q - 0.1 - (k : ℚ) / 10 = q - ((k + 1 : ℕ) : ℚ) / 10 := by
        push_cast
        norm_num
        ring
      rw [hnum]
      simp [List.replicate_succ]

/-- C4: from the blitz preset (300 s, zero increment) with `start('player')`,
301 simulated seconds of 100 ms ticks (3010 ticks) produce exactly 2999
per-tick callback invocations followed by a single timeout callback with
`'player'` — the per-tick callback is not invoked on the timeout tick, the
timeout fires exactly once, and the player's remaining time is clamped to
0 (the post-timeout ticks are no-ops because `handleTimeout` pauses). -/
theorem blitz_timeout_scenario :
    (TimerManager.runTicks 3010 TimerManager.blitzStarted).2
        = List.replicate 2999 Evt.ticked ++ [Evt.timeout Side.player]
    ∧ (TimerManager.runTicks 3010 TimerManager.blitzStarted).1.playerTime = JSNum.fin 0
    ∧ (TimerManager.runTicks 3010 TimerManager.blitzStarted).2.count
        (Evt.timeout Side.player) = 1 := by
  have h2999 := runTicks_running 2999 TimerManager.blitzStarted 300 rfl rfl rfl (by norm_num)
  have htimeout := tick_timeout
      ({ TimerManager.blitzStarted with
          playerTime := JSNum.fin (300 - ((2999 : ℕ) : ℚ) / 10) })
      (300 - ((2999 : ℕ) : ℚ) / 10) rfl rfl rfl (by push_cast; norm_num)
  have hrun : TimerManager.runTicks 3010 TimerManager.blitzStarted
      = ({ { TimerManager.blitzStarted with
              playerTime := JSNum.fin (300 - ((2999 : ℕ) : ℚ) / 10) } with
            playerTime := JSNum.fin 0, isPaused := true },
          List.replicate 2999 Evt.ticked ++ [Evt.timeout Side.player]) := by
    rw [show (3010 : ℕ) = 2999 + (1 + 10) from by norm_num, runTicks_add, h2999]
    dsimp only
    rw [runTicks_add, runTicks_one, htimeout]
    dsimp only
    rw [runTicks_paused 10 _ rfl]
    simp only [Option.toList_some, List.append_nil]
  refine ⟨by rw [hrun], by rw [hrun], ?_⟩
  rw [hrun]
  rw [List.count_append, List.count_replicate]
  have hbeq : (Evt.ticked == Evt.timeout Side.player) = false := rfl
  rw [hbeq]
  simp only [Bool.false_eq_true, if_false, zero_add]
  rfl
